import Mathlib

/-!
Verification of the GENTAX chat frontend controller (`static/script.js`).

The development shallowly embeds the `ChatBot` class as a record of its
mutable fields plus pure transition functions, one per method.  The
asynchronous `sendMessage` is split at its single `await` into
`sendMessageStart` (everything before the gateway call, returning the
issued request, if any) and `sendMessageSettle` (the continuation that
runs when the fetch settles).  Quantities the browser supplies
(`Date.now()`, `Math.random()` suffix, `toLocaleTimeString`) are passed
in through an `Env` record.
-/

set_option maxRecDepth 40000

namespace GenTax

/-- Whitespace recognised by JavaScript `String.prototype.trim`
(the characters relevant here: space, tab, LF, VT, FF, CR, NBSP, BOM and
the two Unicode line separators). -/
def isJsWhitespace (c : Char) : Bool :=
  c == ' ' || c == '\t' || c == '\n' || c == Char.ofNat 11 || c == Char.ofNat 12 ||
  c == '\r' || c == Char.ofNat 0xa0 || c == Char.ofNat 0xfeff ||
  c == Char.ofNat 0x2028 || c == Char.ofNat 0x2029

/-- JavaScript `String.prototype.trim`: drop leading and trailing
whitespace, keeping interior characters verbatim. -/
def jsTrim (s : String) : String :=
  String.mk (((s.data.dropWhile isJsWhitespace).reverse.dropWhile isJsWhitespace).reverse)

/-- Line terminators that a JavaScript regex `.` does not match. -/
def isLineTerm (c : Char) : Bool :=
  c == '\n' || c == '\r' || c == Char.ofNat 0x2028 || c == Char.ofNat 0x2029

/-- `startsWith d l`: the character list `l` begins with `d`. -/
def startsWith : List Char → List Char → Bool
  | [], _ => true
  | _ :: _, [] => false
  | d :: ds, c :: cs => d == c && startsWith ds cs

/-- Search for the lazily-nearest occurrence of the closing delimiter `d`,
as the regex fragment `(.*?)d` does: try a zero-length capture first, then
extend one (non-line-terminator) character at a time.  Returns the
captured inner text and the remainder after the closing delimiter. -/
def findClose (d : List Char) : List Char → Option (List Char × List Char)
  | [] => if startsWith d [] then some ([], ([] : List Char).drop d.length) else none
  | c :: cs =>
    if startsWith d (c :: cs) then some ([], (c :: cs).drop d.length)
    else if isLineTerm c then none
    else (findClose d cs).map (fun p => (c :: p.1, p.2))

theorem startsWith_decomp : ∀ (d l : List Char), startsWith d l = true → l = d ++ l.drop d.length := by
  intro d
  induction d with
  | nil => intro l _; simp
  | cons a ds ih =>
    intro l h
    cases l with
    | nil => simp [startsWith] at h
    | cons c cs =>
      simp only [startsWith, Bool.and_eq_true, beq_iff_eq] at h
      obtain ⟨rfl, h2⟩ := h
      have := ih cs h2
      simp only [List.length_cons, List.drop_succ_cons]
      exact congrArg (a :: ·) this

theorem findClose_decomp (d : List Char) :
    ∀ (l inn rest : List Char), findClose d l = some (inn, rest) → l = inn ++ d ++ rest := by
  intro l
  induction l with
  | nil =>
    intro inn rest h
    cases d with
    | nil =>
      simp only [findClose, startsWith, if_pos] at h
      cases h
      simp
    | cons a ds => simp [findClose, startsWith] at h
  | cons c cs ih =>
    intro inn rest h
    simp only [findClose] at h
    by_cases hs : startsWith d (c :: cs) = true
    · rw [if_pos hs] at h
      cases h
      have hd := startsWith_decomp d (c :: cs) hs
      simpa using hd
    · rw [if_neg hs] at h
      by_cases ht : isLineTerm c = true
      · rw [if_pos ht] at h; cases h
      · rw [if_neg ht] at h
        cases hfc : findClose d cs with
        | none => rw [hfc] at h; cases h
        | some p =>
          rw [hfc] at h
          cases h
          have := ih p.1 p.2 (by rw [hfc])
          simp [this]

theorem findClose_rest_le (d : List Char) :
    ∀ (l inn rest : List Char), findClose d l = some (inn, rest) → rest.length ≤ l.length := by
  intro l inn rest h
  have := findClose_decomp d l inn rest h
  have hlen : l.length = inn.length + d.length + rest.length := by
    rw [this]; simp [List.length_append]; omega
  omega

/-- One attempt of a global lazy regex `/D(.*?)D/g` at the head of `l`:
if `l` starts with the delimiter `c0 :: ds` and a (lazy) closing
delimiter follows, return the captured text and the tail after the match. -/
def matchAt (c0 : Char) (ds : List Char) (l : List Char) : Option (List Char × List Char) :=
  if startsWith (c0 :: ds) l then findClose (c0 :: ds) (l.drop (ds.length + 1)) else none

theorem matchAt_rest_lt (c0 : Char) (ds : List Char) (c : Char) (cs inn rest : List Char)
    (h : matchAt c0 ds (c :: cs) = some (inn, rest)) : rest.length < (c :: cs).length := by
  unfold matchAt at h
  by_cases hs : startsWith (c0 :: ds) (c :: cs) = true
  · rw [if_pos hs] at h
    have hdrop : (c :: cs).drop (ds.length + 1) = cs.drop ds.length := by
      simp [List.drop_succ_cons]
    rw [hdrop] at h
    have hdec := findClose_decomp (c0 :: ds) (cs.drop ds.length) inn rest h
    have hlen : (cs.drop ds.length).length = inn.length + (ds.length + 1) + rest.length := by
      rw [hdec]; simp [List.length_append]; omega
    have hle : (cs.drop ds.length).length ≤ cs.length := by
      simp [List.length_drop]
    simp only [List.length_cons]
    omega
  · rw [if_neg hs] at h; cases h

/-- The global replacement `text.replace(/D(.*?)D/g, openT + captured + closeT)`
for a literal delimiter `D = c0 :: ds`, scanning left to right as the
JavaScript regex engine does. -/
def lazyReplace (c0 : Char) (ds openT closeT : List Char) : List Char → List Char
  | [] => []
  | c :: cs =>
    match h : matchAt c0 ds (c :: cs) with
    | some (inn, rest) => openT ++ inn ++ closeT ++ lazyReplace c0 ds openT closeT rest
    | none => c :: lazyReplace c0 ds openT closeT cs
termination_by l => l.length
decreasing_by
  · exact matchAt_rest_lt c0 ds c cs inn rest h
  · simp

/-- The replacement `text.replace(/\n/g, 'LTbrGT')` character by character. -/
def replBr : List Char → List Char
  | [] => []
  | c :: cs => (if c = '\n' then ['<', 'b', 'r', '>'] else [c]) ++ replBr cs

def backtickChar : Char := Char.ofNat 96

/-- `.replace(/\n/g, 'LTbrGT')` from `formatMessage`. -/
def jsReplaceNewlines (s : String) : String := String.mk (replBr s.data)

/-- `.replace(/\*\*(.*?)\*\*/g, 'LTstrongGT$1LT/strongGT')` from `formatMessage`. -/
def jsReplaceStrong (s : String) : String :=
  String.mk (lazyReplace '*' ['*'] "<strong>".data "</strong>".data s.data)

/-- `.replace(/\*(.*?)\*/g, 'LTemGT$1LT/emGT')` from `formatMessage`. -/
def jsReplaceEm (s : String) : String :=
  String.mk (lazyReplace '*' [] "<em>".data "</em>".data s.data)

/-- The backtick-to-code replacement from `formatMessage`. -/
def jsReplaceCode (s : String) : String :=
  String.mk (lazyReplace backtickChar [] "<code>".data "</code>".data s.data)

/-- `ChatBot.formatMessage`: the four chained global regex replacements,
and nothing else — in particular no HTML escaping. -/
def formatMessage (text : String) : String :=
  jsReplaceCode (jsReplaceEm (jsReplaceStrong (jsReplaceNewlines text)))

/-- The `message-bubble` div written into `messageDiv.innerHTML` by
`ChatBot.addMessage`; the formatted text is interpolated verbatim. -/
def messageBubbleHtml (text : String) : String :=
  "<div class=\"message-bubble\">" ++ formatMessage text ++ "</div>"

/-- An entry of `this.messageHistory`: the object
`{ text, sender, timestamp }` pushed by `ChatBot.addMessage`. -/
structure Msg where
  text : String
  sender : String
  timestamp : String
deriving Repr, DecidableEq

/-- The mutable fields of the `ChatBot` instance together with the pieces
of DOM state its methods read and write (input value, button/indicator
visibility, character counter, error toast).  Presentation-only effects
(focus, scrolling, textarea height) are outside the spec's scope and not
modelled. -/
structure ChatState where
  sessionId : String
  isTyping : Bool
  messageHistory : List Msg
  inputValue : String
  sendDisabled : Bool
  charCounterText : String
  charCounterColor : String
  welcomeVisible : Bool
  chatVisible : Bool
  typingVisible : Bool
  loadingVisible : Bool
  errorVisible : Bool
  errorText : String
  renderedMessages : List String
deriving Repr, DecidableEq

/-- Browser-supplied quantities consumed by one event handler run:
`Date.now()`, the random base36 suffix `Math.random().toString(36).substr(2, 9)`,
and `new Date().toLocaleTimeString(...)`. -/
structure Env where
  nowMs : Nat
  randSuffix : String
  timeStr : String
deriving Repr, DecidableEq

/-- The JSON body `{ question, session_id }` posted by `ChatBot.sendToAPI`. -/
structure ApiRequest where
  question : String
  session_id : String
deriving Repr, DecidableEq

/-- How a `fetch('/api/chat')` call settles, as seen by `sendToAPI`:
rejected transport, non-2xx response (with the `detail` field of its JSON
body when that parses, `none` otherwise), 2xx with unparsable body, or
2xx with a parsed `{ answer, session_id }` body. -/
inductive HttpResult where
  | networkError : HttpResult
  | failure (status : Nat) (detail : Option String) : HttpResult
  | successMalformed : HttpResult
  | success (answer : String) (session_id : Option String) : HttpResult
deriving Repr, DecidableEq

/-- `ChatBot.sendToAPI` after the response arrives: non-ok responses throw
`Error(errorData.detail || 'HTTP ' + status)` (a falsy — absent or empty —
`detail` falls back to the generic status message); ok responses are
parsed and returned; transport and parse failures throw. -/
def gatewayResult : HttpResult → Except String (String × Option String)
  | .networkError => .error "TypeError: Failed to fetch"
  | .failure status detail =>
    .error (match detail with
            | some d => if d = "" then "HTTP " ++ toString status else d
            | none => "HTTP " ++ toString status)
  | .successMalformed => .error "SyntaxError: Unexpected end of JSON input"
  | .success a sid => .ok (a, sid)

/-- `ChatBot.generateSessionId`. -/
def generateSessionId (e : Env) (s : ChatState) : ChatState :=
  { s with sessionId := "session_" ++ toString e.nowMs ++ "_" ++ e.randSuffix }

/-- `ChatBot.handleInputChange`: refresh the character counter, the send
button's disabled flag (`!text || this.isTyping`), and the counter colour
(note the source checks `> 900` before `> 950`, so the error colour branch
is shadowed — modelled verbatim). -/
def handleInputChange (s : ChatState) : ChatState :=
  let text := jsTrim s.inputValue
  let charCount := s.inputValue.length
  { s with
    charCounterText := toString charCount ++ "/1000",
    sendDisabled := (text == "") || s.isTyping,
    charCounterColor :=
      if 900 < charCount then "var(--warning-color)"
      else if 950 < charCount then "var(--error-color)"
      else "var(--text-light)" }

/-- `ChatBot.showWelcomeScreen`. -/
def showWelcomeScreen (s : ChatState) : ChatState :=
  { s with welcomeVisible := true, chatVisible := false }

/-- `ChatBot.showChatInterface`. -/
def showChatInterface (s : ChatState) : ChatState :=
  { s with welcomeVisible := false, chatVisible := true }

/-- `ChatBot.showTypingIndicator`. -/
def showTypingIndicator (s : ChatState) : ChatState :=
  { s with isTyping := true, sendDisabled := true, typingVisible := true }

/-- `ChatBot.hideTypingIndicator`: reset `isTyping`, rerun
`handleInputChange`, hide the indicator. -/
def hideTypingIndicator (s : ChatState) : ChatState :=
  let s1 := handleInputChange { s with isTyping := false }
  { s1 with typingVisible := false }

/-- The `messageDiv.innerHTML` template of `ChatBot.addMessage`. -/
def messageDivHtml (sender timeStr text : String) : String :=
  let avatar := if sender == "user" then "👤" else "🤖"
  "\n            <div class=\"message-avatar\">" ++ avatar ++
  "</div>\n            <div class=\"message-content\">\n                " ++
  messageBubbleHtml text ++
  "\n                <div class=\"message-time\">" ++ timeStr ++
  "</div>\n            </div>\n        "

/-- `ChatBot.addMessage`: append the rendered div to the message area and
push `{ text, sender, timestamp }` onto `messageHistory`. -/
def addMessage (e : Env) (text sender : String) (s : ChatState) : ChatState :=
  { s with
    renderedMessages := s.renderedMessages ++ [messageDivHtml sender e.timeStr text],
    messageHistory := s.messageHistory ++ [⟨text, sender, e.timeStr⟩] }

/-- `ChatBot.showError` (the toast; its 5-second auto-hide is the separate
`errorTimeout` event). -/
def showError (msg : String) (s : ChatState) : ChatState :=
  { s with errorText := msg, errorVisible := true }

/-- `ChatBot.hideError`. -/
def hideError (s : ChatState) : ChatState :=
  { s with errorVisible := false }

/-- The `setTimeout(() => this.hideError(), 5000)` scheduled by `showError`. -/
def errorTimeout (s : ChatState) : ChatState := hideError s

/-- `ChatBot.showLoading`. -/
def showLoading (s : ChatState) : ChatState :=
  { s with loadingVisible := true }

/-- `ChatBot.hideLoading`. -/
def hideLoading (s : ChatState) : ChatState :=
  { s with loadingVisible := false }

/-- `ChatBot.sendMessage` up to its `await this.sendToAPI(message)`:
the guard `if (!message || this.isTyping) return;`, then clear the input,
rerun `handleInputChange`, reveal the chat interface if hidden, append the
user message, show the typing indicator, and issue the request (whose body
reads `this.sessionId` at that moment).  Returns the state together with
the issued request, or `none` when the guard rejected. -/
def sendMessageStart (e : Env) (s : ChatState) : ChatState × Option ApiRequest :=
  let message := jsTrim s.inputValue
  if message = "" ∨ s.isTyping = true then (s, none)
  else
    let s1 := handleInputChange { s with inputValue := "" }
    let s2 := if s1.chatVisible = false then showChatInterface s1 else s1
    let s3 := addMessage e message "user" s2
    let s4 := showTypingIndicator s3
    (s4, some { question := message, session_id := s4.sessionId })

/-- The continuation of `ChatBot.sendMessage` once the gateway call
settles: on success hide the indicator, append the assistant message and
adopt a truthy `response.session_id`; on any thrown error hide the
indicator and show the fixed toast text; the `finally` block then clears
`isTyping` and reruns `handleInputChange`.  The continuation never
consults the request it belongs to, nor whether the session changed while
it was in flight. -/
def sendMessageSettle (e : Env) (s : ChatState) (r : HttpResult) : ChatState :=
  match gatewayResult r with
  | .ok (answer, sid) =>
    let s1 := hideTypingIndicator s
    let s2 := addMessage e answer "assistant" s1
    let s3 := match sid with
              | some t => if t = "" then s2 else { s2 with sessionId := t }
              | none => s2
    handleInputChange { s3 with isTyping := false }
  | .error _ =>
    let s1 := hideTypingIndicator s
    let s2 := showError "Failed to get response. Please try again." s1
    handleInputChange { s2 with isTyping := false }

/-- `ChatBot.startNewChat`: show the loading overlay, generate a fresh
session id, clear the message area and history, show the welcome screen,
hide the overlay, reset the input and rerun `handleInputChange`.
`isTyping` and the error toast are not touched. -/
def startNewChat (e : Env) (s : ChatState) : ChatState :=
  let s1 := showLoading s
  let s2 := generateSessionId e s1
  let s3 := { s2 with renderedMessages := [], messageHistory := [] }
  let s4 := showWelcomeScreen s3
  let s5 := hideLoading s4
  handleInputChange { s5 with inputValue := "" }

/-- `ChatBot.askSampleQuestion`: set the input to the question text, run
`handleInputChange`, then call `sendMessage`. -/
def askSampleQuestion (e : Env) (q : String) (s : ChatState) : ChatState × Option ApiRequest :=
  let s1 := { s with inputValue := q }
  let s2 := handleInputChange s1
  sendMessageStart e s2

/-- The `input` event listener: the user's edit sets the field value and
the handler `handleInputChange` runs. -/
def inputChanged (q : String) (s : ChatState) : ChatState :=
  handleInputChange { s with inputValue := q }

/-- Stated from the spec's words for the refinement claim: the ordinary
path is to populate the input with the literal text (firing the
input-change handling that typing fires) and then invoke the ordinary
validation/send path. -/
def ordinarySendPath (e : Env) (q : String) (s : ChatState) : ChatState × Option ApiRequest :=
  sendMessageStart e (inputChanged q s)

/-- `ChatBot.getChatHistory`. -/
def getChatHistory (s : ChatState) : List Msg := s.messageHistory

def hexDigit (n : Nat) : Char :=
  if n < 10 then Char.ofNat (48 + n) else Char.ofNat (87 + n)

def hex4 (n : Nat) : String :=
  String.mk [hexDigit (n / 4096 % 16), hexDigit (n / 256 % 16),
             hexDigit (n / 16 % 16), hexDigit (n % 16)]

/-- `JSON.stringify` escaping of one character inside a string literal. -/
def jsonEscapeChar (c : Char) : String :=
  if c = Char.ofNat 34 then "\\\""
  else if c = Char.ofNat 92 then "\\\\"
  else if c = Char.ofNat 8 then "\\b"
  else if c = Char.ofNat 9 then "\\t"
  else if c = Char.ofNat 10 then "\\n"
  else if c = Char.ofNat 12 then "\\f"
  else if c = Char.ofNat 13 then "\\r"
  else if c.toNat < 32 then "\\u" ++ hex4 c.toNat
  else String.singleton c

/-- `JSON.stringify` of a string value. -/
def jsonStr (s : String) : String :=
  "\"" ++ String.join (s.data.map jsonEscapeChar) ++ "\""

/-- One history entry as `JSON.stringify(history, null, 2)` renders it:
keys in insertion order `text`, `sender`, `timestamp`. -/
def jsonOfMsg (m : Msg) : String :=
  "  \x7b\n    \"text\": " ++ jsonStr m.text ++
  ",\n    \"sender\": " ++ jsonStr m.sender ++
  ",\n    \"timestamp\": " ++ jsonStr m.timestamp ++ "\n  \x7d"

/-- `JSON.stringify(history, null, 2)` for the whole history array. -/
def jsonStringifyHistory (l : List Msg) : String :=
  match l with
  | [] => "[]"
  | _ => "[\n" ++ String.intercalate ",\n" (l.map jsonOfMsg) ++ "\n]"

/-- `ChatBot.exportChatHistory`: serialize `getChatHistory()` into the
downloaded blob; the method only reads state, so the state component of
the result is the input state. -/
def exportChatHistory (s : ChatState) : String × ChatState :=
  (jsonStringifyHistory (getChatHistory s), s)

/-- The spec's `InteractionState` view of the concrete state. -/
inductive InteractionState where
  | Idle : InteractionState
  | Composing : InteractionState
  | AwaitingResponse : InteractionState
  | Errored : InteractionState
deriving Repr, DecidableEq

/-- Abstraction map: a request is in flight exactly while `isTyping`
holds; otherwise a visible error toast means `Errored`; otherwise
nonempty trimmed input means `Composing`; else `Idle`. -/
def viewState (s : ChatState) : InteractionState :=
  if s.isTyping then .AwaitingResponse
  else if s.errorVisible then .Errored
  else if jsTrim s.inputValue ≠ "" then .Composing
  else .Idle

/-! Concrete fixtures used by witnesses and counterexamples. -/

/-- A plain idle state (fresh page after construction, welcome screen up). -/
def baseState : ChatState :=
  { sessionId := "session_1700000000000_a1b2c3d4e"
    isTyping := false
    messageHistory := []
    inputValue := ""
    sendDisabled := true
    charCounterText := "0/1000"
    charCounterColor := "var(--text-light)"
    welcomeVisible := true
    chatVisible := false
    typingVisible := false
    loadingVisible := false
    errorVisible := false
    errorText := ""
    renderedMessages := [] }

def envA : Env := { nowMs := 1000, randSuffix := "a1b2c3d4e", timeStr := "10:00" }

def envB : Env := { nowMs := 2000, randSuffix := "f5g6h7i8j", timeStr := "10:01" }

def envC : Env := { nowMs := 3000, randSuffix := "k9l0m1n2o", timeStr := "10:02" }

/-- A state with a request in flight and text already typed into the box. -/
def awaitingState : ChatState :=
  { baseState with isTyping := true, typingVisible := true, chatVisible := true,
                   welcomeVisible := false, inputValue := "second question",
                   messageHistory := [⟨"first question", "user", "09:59"⟩] }

/-! Structural lemmas about the send pipeline, shared by several claims. -/

theorem sendMessageStart_snd (e : Env) (s : ChatState)
    (h : ¬(jsTrim s.inputValue = "" ∨ s.isTyping = true)) :
    (sendMessageStart e s).2 = some ⟨jsTrim s.inputValue, s.sessionId⟩ := by
  unfold sendMessageStart
  rw [if_neg h]
  simp only [showChatInterface, addMessage, showTypingIndicator, handleInputChange]
  split <;> rfl

theorem sendMessageStart_fst_history (e : Env) (s : ChatState)
    (h : ¬(jsTrim s.inputValue = "" ∨ s.isTyping = true)) :
    (sendMessageStart e s).1.messageHistory
      = s.messageHistory ++ [⟨jsTrim s.inputValue, "user", e.timeStr⟩] := by
  unfold sendMessageStart
  rw [if_neg h]
  simp only [showChatInterface, addMessage, showTypingIndicator, handleInputChange]
  split <;> rfl

theorem sendMessageStart_fst_sessionId (e : Env) (s : ChatState) :
    (sendMessageStart e s).1.sessionId = s.sessionId := by
  unfold sendMessageStart
  by_cases hg : jsTrim s.inputValue = "" ∨ s.isTyping = true
  · rw [if_pos hg]
  · rw [if_neg hg]
    simp only [showChatInterface, addMessage, showTypingIndicator, handleInputChange]
    split <;> rfl

theorem sendMessageSettle_success_history (e : Env) (s : ChatState) (ans : String)
    (o : Option String) :
    (sendMessageSettle e s (.success ans o)).messageHistory
      = s.messageHistory ++ [⟨ans, "assistant", e.timeStr⟩] := by
  unfold sendMessageSettle gatewayResult
  cases o with
  | none => simp [hideTypingIndicator, addMessage, handleInputChange]
  | some t =>
    by_cases ht : t = "" <;>
      simp [ht, hideTypingIndicator, addMessage, handleInputChange]

theorem sendMessageSettle_success_sessionId (e : Env) (s : ChatState) (ans : String)
    (o : Option String) :
    (sendMessageSettle e s (.success ans o)).sessionId
      = match o with
        | some t => if t = "" then s.sessionId else t
        | none => s.sessionId := by
  unfold sendMessageSettle gatewayResult
  cases o with
  | none => simp [hideTypingIndicator, addMessage, handleInputChange]
  | some t =>
    by_cases ht : t = "" <;>
      simp [ht, hideTypingIndicator, addMessage, handleInputChange]

theorem startNewChat_fields (e : Env) (s : ChatState) :
    (startNewChat e s).messageHistory = []
    ∧ (startNewChat e s).sessionId = "session_" ++ toString e.nowMs ++ "_" ++ e.randSuffix
    ∧ (startNewChat e s).inputValue = ""
    ∧ (startNewChat e s).isTyping = s.isTyping
    ∧ (startNewChat e s).errorVisible = s.errorVisible := by
  unfold startNewChat
  simp [showLoading, generateSessionId, showWelcomeScreen, hideLoading, handleInputChange]

/-! Claim theorems. -/

/-- C1: while a request is in flight (`isTyping` true / AwaitingResponse),
`sendMessage` returns before doing anything: the state — transcript
included — is unchanged and no request is issued; conversely a request is
only ever issued from a state with no request in flight, and issuing one
raises the in-flight flag, so at most one request is ever in flight. -/
theorem send_noop_while_awaiting (e : Env) (s : ChatState) :
    (s.isTyping = true → sendMessageStart e s = (s, none))
    ∧ (∀ req : ApiRequest, (sendMessageStart e s).2 = some req →
        s.isTyping = false ∧ (sendMessageStart e s).1.isTyping = true) := by
  constructor
  · intro h
    unfold sendMessageStart
    rw [if_pos (Or.inr h)]
  · intro req hreq
    by_cases hg : jsTrim s.inputValue = "" ∨ s.isTyping = true
    · unfold sendMessageStart at hreq
      rw [if_pos hg] at hreq
      cases hreq
    · push_neg at hg
      have hTyp : s.isTyping = false := by
        cases hb : s.isTyping
        · rfl
        · exact absurd hb hg.2
      refine ⟨hTyp, ?_⟩
      unfold sendMessageStart
      rw [if_neg (by push_neg; exact hg)]
      simp [showTypingIndicator]

/-- C1 witness: from the concrete awaiting state, `sendMessage` is a no-op. -/
theorem send_noop_while_awaiting_witness :
    sendMessageStart envA awaitingState = (awaitingState, none) :=
  (send_noop_while_awaiting envA awaitingState).1 rfl

/-- C8: the sample-question shortcut performs exactly the set-input,
input-change, ordinary-send sequence — the same validation, the same
transcript append, the same request, with no special-cased behaviour. -/
theorem askSampleQuestion_eq_ordinary_path (e : Env) (q : String) (s : ChatState) :
    askSampleQuestion e q s = ordinarySendPath e q s := rfl

/-- C9: export leaves the whole state unchanged, its artifact is the
serialization of the full message history, a nonempty history is rendered
as the ordered JSON array of its entries in list order, and `addMessage`
appends at the tail, so list order is insertion order; each serialized
entry carries exactly the `text`, `sender` and `timestamp` fields. -/
theorem exportChatHistory_readonly_ordered (s : ChatState) :
    (exportChatHistory s).2 = s
    ∧ (exportChatHistory s).1 = jsonStringifyHistory s.messageHistory
    ∧ (s.messageHistory ≠ [] →
        (exportChatHistory s).1
          = "[\n" ++ String.intercalate ",\n" (s.messageHistory.map jsonOfMsg) ++ "\n]")
    ∧ (∀ (e : Env) (text sender : String) (s0 : ChatState),
        getChatHistory (addMessage e text sender s0)
          = getChatHistory s0 ++ [⟨text, sender, e.timeStr⟩])
    ∧ (∀ m : Msg, jsonOfMsg m
          = "  \x7b\n    \"text\": " ++ jsonStr m.text
            ++ ",\n    \"sender\": " ++ jsonStr m.sender
            ++ ",\n    \"timestamp\": " ++ jsonStr m.timestamp ++ "\n  \x7d") := by
  refine ⟨rfl, rfl, ?_, ?_, ?_⟩
  · intro hne
    unfold exportChatHistory getChatHistory jsonStringifyHistory
    cases hh : s.messageHistory with
    | nil => exact absurd hh hne
    | cons m ms => simp
  · intro e text sender s0
    simp [getChatHistory, addMessage]
  · intro m
    rfl

/-- C9 witness: on a two-message history the export artifact is the
ordered two-element JSON array, and the state is untouched. -/
theorem exportChatHistory_readonly_ordered_witness :
    (exportChatHistory awaitingState).1
      = "[\n" ++ String.intercalate ",\n" (awaitingState.messageHistory.map jsonOfMsg) ++ "\n]" :=
  (exportChatHistory_readonly_ordered awaitingState).2.2.1 (by decide)

/-- C5: a successful response with a nonempty (truthy) `session_id` is
adopted as the current token; an absent or empty `session_id` leaves the
held token unchanged; and every issued request carries the token held at
issue time (`sendMessage` itself never changes the token before the
request body is built). -/
theorem token_adoption_policy (e : Env) (s : ChatState) (ans : String) (o : Option String) :
    (∀ t : String, o = some t → t ≠ "" →
        (sendMessageSettle e s (.success ans o)).sessionId = t)
    ∧ ((o = none ∨ o = some "") →
        (sendMessageSettle e s (.success ans o)).sessionId = s.sessionId)
    ∧ (∀ (e2 : Env) (s2 : ChatState) (req : ApiRequest),
        (sendMessageStart e2 s2).2 = some req → req.session_id = s2.sessionId)
    ∧ ((sendMessageStart e s).1.sessionId = s.sessionId) := by
  refine ⟨?_, ?_, ?_, sendMessageStart_fst_sessionId e s⟩
  · intro t ho ht
    subst ho
    rw [sendMessageSettle_success_sessionId]
    simp [ht]
  · intro ho
    rcases ho with ho | ho <;> subst ho <;> rw [sendMessageSettle_success_sessionId] <;> simp
  · intro e2 s2 req hreq
    by_cases hg : jsTrim s2.inputValue = "" ∨ s2.isTyping = true
    · unfold sendMessageStart at hreq
      rw [if_pos hg] at hreq
      cases hreq
    · rw [sendMessageStart_snd e2 s2 hg] at hreq
      cases hreq
      rfl

/-- C5 witness: a response carrying `session_id = "srv123"` makes the
held token `"srv123"`. -/
theorem token_adoption_policy_witness :
    (sendMessageSettle envB baseState (.success "Hi!" (some "srv123"))).sessionId = "srv123" :=
  (token_adoption_policy envB baseState "Hi!" (some "srv123")).1 "srv123" rfl (by decide)

/-- A send issued under token `"T1"`, about to be superseded by new-chat. -/
def staleStartState : ChatState :=
  { baseState with sessionId := "T1", inputValue := "what is GST?" }

/-- The state after the request is issued under `"T1"`, new-chat runs
(token becomes the fresh `T2 = "session_2000_f5g6h7i8j"`), and only then
the old request settles successfully. -/
def staleSettledState : ChatState :=
  sendMessageSettle envC
    (startNewChat envB (sendMessageStart envA staleStartState).1)
    (.success "stale answer" (some "srvStale"))

/-- C2 counterexample: the request issued under `T1` settles after
new-chat produced `T2`, yet the `T2` transcript gains the stale assistant
message and the `T2` token is overwritten by the stale response's
`session_id` — the claimed discard does not happen. -/
theorem stale_response_not_discarded_cex :
    ((sendMessageStart envA staleStartState).2
        = some ⟨"what is GST?", "T1"⟩)
    ∧ ((startNewChat envB (sendMessageStart envA staleStartState).1).sessionId
        = "session_2000_f5g6h7i8j")
    ∧ ((startNewChat envB (sendMessageStart envA staleStartState).1).messageHistory = [])
    ∧ staleSettledState.messageHistory = [⟨"stale answer", "assistant", "10:02"⟩]
    ∧ staleSettledState.sessionId = "srvStale" := by
  decide

/-- C2 amended: the settle continuation never compares tokens, so a late
response from a superseded session is applied to the fresh session: the
assistant message is appended to the (empty) new transcript and a
nonempty `session_id` in the stale response overwrites the fresh token. -/
theorem stale_response_applied (eNew eSettle : Env) (s : ChatState) (ans sid : String)
    (h : sid ≠ "") :
    (sendMessageSettle eSettle (startNewChat eNew s) (.success ans (some sid))).messageHistory
      = [⟨ans, "assistant", eSettle.timeStr⟩]
    ∧ (sendMessageSettle eSettle (startNewChat eNew s) (.success ans (some sid))).sessionId
      = sid := by
  constructor
  · rw [sendMessageSettle_success_history]
    rw [(startNewChat_fields eNew s).1]
    simp
  · rw [sendMessageSettle_success_sessionId]
    simp [h]

/-- C2 amended witness: the concrete stale settle from the counterexample
trace, obtained through the amended theorem. -/
theorem stale_response_applied_witness :
    (sendMessageSettle envC
        (startNewChat envB (sendMessageStart envA staleStartState).1)
        (.success "stale answer" (some "srvStale"))).messageHistory
      = [⟨"stale answer", "assistant", envC.timeStr⟩] :=
  (stale_response_applied envB envC (sendMessageStart envA staleStartState).1
    "stale answer" "srvStale" (by decide)).1

theorem sendMessageSettle_failure_shape (e : Env) (s : ChatState) (status : Nat)
    (d : Option String) :
    ((sendMessageSettle e s (.failure status d)).errorVisible = true)
    ∧ ((sendMessageSettle e s (.failure status d)).errorText
        = "Failed to get response. Please try again.")
    ∧ ((sendMessageSettle e s (.failure status d)).messageHistory = s.messageHistory)
    ∧ ((sendMessageSettle e s (.failure status d)).isTyping = false)
    ∧ ((sendMessageSettle e s (.failure status d)).inputValue = s.inputValue)
    ∧ ((sendMessageSettle e s (.failure status d)).sessionId = s.sessionId) := by
  unfold sendMessageSettle gatewayResult
  simp [hideTypingIndicator, showError, handleInputChange]

/-- A state awaiting a response with an empty input box, as `sendMessage`
leaves it while its request is in flight. -/
def awaitingEmptyInput : ChatState :=
  { baseState with isTyping := true, typingVisible := true, chatVisible := true,
                   welcomeVisible := false,
                   messageHistory := [⟨"what is GST?", "user", "10:00"⟩] }

/-- C4 counterexample: a 500 response whose body is
`detail = "index unavailable"` produces the fixed toast text
`"Failed to get response. Please try again."`, not the claimed
user-visible message `"index unavailable"` (the detail reaches only the
thrown error, which is logged, never displayed). -/
theorem error_detail_not_surfaced_cex :
    ((sendMessageSettle envB awaitingEmptyInput
        (.failure 500 (some "index unavailable"))).errorText
      = "Failed to get response. Please try again.")
    ∧ ((sendMessageSettle envB awaitingEmptyInput
        (.failure 500 (some "index unavailable"))).errorText ≠ "index unavailable")
    ∧ (gatewayResult (.failure 500 (some "index unavailable"))
        = .error "index unavailable") :=
  ⟨by decide, by decide, rfl⟩

/-- C4 amended: on a non-2xx settle the machine enters `Errored` showing
the generic toast text `"Failed to get response. Please try again."`
(the body's `detail` is not the displayed message), the transcript is
unchanged — no assistant message is appended — and after the fixed
5-second timeout the toast clears and the view returns to `Idle`. -/
theorem server_error_generic_toast (e : Env) (s : ChatState) (status : Nat) (d : Option String)
    (hin : jsTrim s.inputValue = "") :
    (viewState (sendMessageSettle e s (.failure status d)) = .Errored)
    ∧ ((sendMessageSettle e s (.failure status d)).errorText
        = "Failed to get response. Please try again.")
    ∧ ((sendMessageSettle e s (.failure status d)).messageHistory = s.messageHistory)
    ∧ (viewState (errorTimeout (sendMessageSettle e s (.failure status d))) = .Idle) := by
  obtain ⟨h1, h2, h3, h4, h5, _⟩ := sendMessageSettle_failure_shape e s status d
  refine ⟨?_, h2, h3, ?_⟩
  · unfold viewState
    rw [h4, h1]
    simp
  · unfold viewState errorTimeout hideError
    simp only [h4, h1, h5]
    simp [hin]

/-- C4 amended witness: the concrete 500/`index unavailable` settle ends
`Errored` with the generic toast, and the timeout returns the view to
`Idle`. -/
theorem server_error_generic_toast_witness :
    (viewState (sendMessageSettle envB awaitingEmptyInput
        (.failure 500 (some "index unavailable"))) = .Errored)
    ∧ ((sendMessageSettle envB awaitingEmptyInput
        (.failure 500 (some "index unavailable"))).errorText
        = "Failed to get response. Please try again.")
    ∧ ((sendMessageSettle envB awaitingEmptyInput
        (.failure 500 (some "index unavailable"))).messageHistory
        = awaitingEmptyInput.messageHistory)
    ∧ (viewState (errorTimeout (sendMessageSettle envB awaitingEmptyInput
        (.failure 500 (some "index unavailable")))) = .Idle) :=
  server_error_generic_toast envB awaitingEmptyInput 500 (some "index unavailable") (by decide)

theorem jsTrim_infix (v : String) :
    ∃ pre post : List Char,
      v.data = pre ++ (jsTrim v).data ++ post
      ∧ pre.all isJsWhitespace ∧ post.all isJsWhitespace := by
  refine ⟨v.data.takeWhile isJsWhitespace,
          ((v.data.dropWhile isJsWhitespace).reverse.takeWhile isJsWhitespace).reverse,
          ?_, ?_, ?_⟩
  · have h1 := List.takeWhile_append_dropWhile (p := isJsWhitespace) (l := v.data)
    have h2 := congrArg List.reverse
      (List.takeWhile_append_dropWhile (p := isJsWhitespace)
        (l := (v.data.dropWhile isJsWhitespace).reverse))
    simp only [List.reverse_append, List.reverse_reverse] at h2
    conv_lhs => rw [← h1]
    rw [List.append_assoc]
    congr 1
    exact h2.symm
  · exact List.all_eq_true.mpr fun x hx => List.mem_takeWhile_imp hx
  · refine List.all_eq_true.mpr fun x hx => ?_
    rw [List.mem_reverse] at hx
    exact List.mem_takeWhile_imp hx

/-- C6: before anything else `sendMessage` trims the input; the trimmed
text is what is stored as the user message and what is sent as the
`question` field; and the trimmed text is a contiguous slice of the raw
input (only all-whitespace prefix and suffix removed, interior verbatim). -/
theorem trimmed_text_stored_and_sent (e : Env) (s : ChatState)
    (h1 : jsTrim s.inputValue ≠ "") (h2 : s.isTyping = false) :
    ((sendMessageStart e s).2 = some ⟨jsTrim s.inputValue, s.sessionId⟩)
    ∧ ((sendMessageStart e s).1.messageHistory
        = s.messageHistory ++ [⟨jsTrim s.inputValue, "user", e.timeStr⟩])
    ∧ (∃ pre post : List Char,
        s.inputValue.data = pre ++ (jsTrim s.inputValue).data ++ post
        ∧ pre.all isJsWhitespace ∧ post.all isJsWhitespace) := by
  have hg : ¬(jsTrim s.inputValue = "" ∨ s.isTyping = true) := by
    rintro (h | h)
    · exact h1 h
    · rw [h2] at h; cases h
  exact ⟨sendMessageStart_snd e s hg, sendMessageStart_fst_history e s hg,
         jsTrim_infix s.inputValue⟩

/-- The input box holding `"  Hello  "`. -/
def helloState : ChatState := { baseState with inputValue := "  Hello  " }

/-- C6 witness: the input `"  Hello  "` is stored and sent as `"Hello"`. -/
theorem trimmed_text_stored_and_sent_witness :
    ((sendMessageStart envA helloState).2
        = some ⟨"Hello", "session_1700000000000_a1b2c3d4e"⟩)
    ∧ ((sendMessageStart envA helloState).1.messageHistory
        = [⟨"Hello", "user", "10:00"⟩]) := by
  have h := trimmed_text_stored_and_sent envA helloState (by decide) rfl
  refine ⟨?_, ?_⟩
  · rw [h.1]; decide
  · rw [h.2.1]; decide

/-- A trimmed input of 1001 characters, one over the displayed cap. -/
def longText : String := String.mk (List.replicate 1001 'a')

/-- The input box holding 1001 characters. -/
def overLongState : ChatState := { baseState with inputValue := longText }

/-- C3 counterexample: for a trimmed input of length 1001 the send is not
blocked — the request is issued and the user message appended, falsifying
the claim that over-length input cannot be sent. -/
theorem overlength_send_not_blocked_cex :
    (1000 < (jsTrim overLongState.inputValue).length)
    ∧ ((sendMessageStart envA overLongState).2
        = some ⟨longText, "session_1700000000000_a1b2c3d4e"⟩)
    ∧ ((sendMessageStart envA overLongState).1.messageHistory
        = [⟨longText, "user", "10:00"⟩]) := by
  refine ⟨by decide, ?_, ?_⟩
  · have hg : ¬(jsTrim overLongState.inputValue = "" ∨ overLongState.isTyping = true) := by
      decide
    rw [sendMessageStart_snd envA overLongState hg]
    decide
  · have hg : ¬(jsTrim overLongState.inputValue = "" ∨ overLongState.isTyping = true) := by
      decide
    rw [sendMessageStart_fst_history envA overLongState hg]
    decide

/-- C3 amended: the controller applies no length check anywhere on the
send path — any input with nonempty trimmed text is sent in full,
untruncated, whatever its length; the 1000 figure appears only in the
character-counter display text `n/1000` maintained by
`handleInputChange`. -/
theorem send_has_no_length_gate (e : Env) (s : ChatState)
    (h1 : jsTrim s.inputValue ≠ "") (h2 : s.isTyping = false) :
    ((sendMessageStart e s).2.isSome = true)
    ∧ ((sendMessageStart e s).2 = some ⟨jsTrim s.inputValue, s.sessionId⟩)
    ∧ ((handleInputChange s).charCounterText
        = toString s.inputValue.length ++ "/1000")
    ∧ ((handleInputChange s).sendDisabled = false) := by
  have hg : ¬(jsTrim s.inputValue = "" ∨ s.isTyping = true) := by
    rintro (h | h)
    · exact h1 h
    · rw [h2] at h; cases h
  refine ⟨?_, sendMessageStart_snd e s hg, rfl, ?_⟩
  · rw [sendMessageStart_snd e s hg]; rfl
  · unfold handleInputChange
    simp [h2, h1]

/-- C3 amended witness: the 1001-character input is sent whole and its
counter reads `1001/1000`. -/
theorem send_has_no_length_gate_witness :
    ((sendMessageStart envA overLongState).2.isSome = true)
    ∧ ((handleInputChange overLongState).charCounterText = "1001/1000") := by
  have h := send_has_no_length_gate envA overLongState (by decide) rfl
  refine ⟨h.1, ?_⟩
  rw [h.2.2.1]
  decide

/-- C7 counterexample: new-chat from an awaiting state (a request in
flight) does not reach `Idle` — `startNewChat` never resets `isTyping`,
so the machine is still `AwaitingResponse` and a follow-up send is still
rejected, falsifying "from any state, new-chat yields the Idle state". -/
theorem newchat_from_awaiting_not_idle_cex :
    ((startNewChat envB awaitingState).isTyping = true)
    ∧ (viewState (startNewChat envB awaitingState) ≠ .Idle)
    ∧ (viewState (startNewChat envB awaitingState) = .AwaitingResponse)
    ∧ (sendMessageStart envC { startNewChat envB awaitingState with inputValue := "hi" }
        = ({ startNewChat envB awaitingState with inputValue := "hi" }, none)) := by
  decide

/-- C7 amended: new-chat is idempotent up to token freshness — running it
twice yields the same state as once in every field except the token, and
each run holds its own freshly generated token; the result has an empty
transcript and cleared input, but the in-flight flag is carried over
unchanged, so from `AwaitingResponse` the machine stays awaiting rather
than becoming `Idle`. -/
theorem newChat_idempotent_up_to_token (e1 e2 : Env) (s : ChatState) :
    (startNewChat e2 (startNewChat e1 s)
      = { startNewChat e1 s with
            sessionId := (startNewChat e2 (startNewChat e1 s)).sessionId })
    ∧ ((startNewChat e2 (startNewChat e1 s)).sessionId
        = "session_" ++ toString e2.nowMs ++ "_" ++ e2.randSuffix)
    ∧ ((startNewChat e1 s).sessionId
        = "session_" ++ toString e1.nowMs ++ "_" ++ e1.randSuffix)
    ∧ ((startNewChat e1 s).messageHistory = [])
    ∧ ((startNewChat e1 s).inputValue = "")
    ∧ ((startNewChat e1 s).isTyping = s.isTyping) := by
  refine ⟨?_, rfl, rfl, rfl, rfl, rfl⟩
  rfl

/-- Identity of the newline replacement on newline-free text. -/
theorem replBr_id (l : List Char) (h : ∀ c ∈ l, c ≠ '\n') : replBr l = l := by
  induction l with
  | nil => rfl
  | cons c cs ih =>
    simp only [replBr]
    rw [if_neg (h c (by simp))]
    simp only [List.singleton_append, List.cons.injEq, true_and]
    exact ih fun x hx => h x (List.mem_cons_of_mem c hx)

/-- Identity of a lazy delimiter replacement on text free of the
delimiter's first character. -/
theorem lazyReplace_id (c0 : Char) (ds openT closeT : List Char) :
    ∀ l : List Char, c0 ∉ l → lazyReplace c0 ds openT closeT l = l := by
  intro l
  induction l with
  | nil => intro _; rw [lazyReplace]
  | cons c cs ih =>
    intro hne
    have hc : c0 ≠ c := fun h => hne (h ▸ List.mem_cons_self c cs)
    have hm : matchAt c0 ds (c :: cs) = none := by
      unfold matchAt
      have hsw : startsWith (c0 :: ds) (c :: cs) = false := by
        simp only [startsWith, Bool.and_eq_false_eq_eq_false_or_eq_false]
        exact Or.inl (beq_eq_false_iff_ne.mpr hc)
      rw [if_neg (by simp [hsw])]
    rw [lazyReplace, hm]
    exact congrArg (c :: ·) (ih fun hx => hne (List.mem_cons_of_mem c hx))

theorem jsReplaceNewlines_id (t : String) (h : ∀ c ∈ t.data, c ≠ '\n') :
    jsReplaceNewlines t = t := by
  unfold jsReplaceNewlines
  rw [replBr_id t.data h]

theorem jsReplaceStrong_id (t : String) (h : '*' ∉ t.data) : jsReplaceStrong t = t := by
  unfold jsReplaceStrong
  rw [lazyReplace_id '*' ['*'] "<strong>".data "</strong>".data t.data h]

theorem jsReplaceEm_id (t : String) (h : '*' ∉ t.data) : jsReplaceEm t = t := by
  unfold jsReplaceEm
  rw [lazyReplace_id '*' [] "<em>".data "</em>".data t.data h]

theorem jsReplaceCode_id (t : String) (h : backtickChar ∉ t.data) : jsReplaceCode t = t := by
  unfold jsReplaceCode
  rw [lazyReplace_id backtickChar [] "<code>".data "</code>".data t.data h]

/-- C10: the rendered message HTML is produced solely by the four chained
regex replacements with no escaping of HTML metacharacters: on any text
containing none of the replacement triggers (newline, asterisk, backtick)
`formatMessage` is the identity, so every character — `<`, `>` and `&`
included — is interpolated verbatim into the `innerHTML` bubble markup. -/
theorem formatMessage_no_escaping (t : String)
    (h : ∀ c ∈ t.data, c ≠ '\n' ∧ c ≠ '*' ∧ c ≠ backtickChar) :
    (formatMessage t = jsReplaceCode (jsReplaceEm (jsReplaceStrong (jsReplaceNewlines t))))
    ∧ (formatMessage t = t)
    ∧ (messageBubbleHtml t = "<div class=\"message-bubble\">" ++ t ++ "</div>") := by
  have hid : formatMessage t = t := by
    unfold formatMessage
    rw [jsReplaceNewlines_id t fun c hc => (h c hc).1,
        jsReplaceStrong_id t fun hmem => ((h _ hmem).2.1 rfl),
        jsReplaceEm_id t fun hmem => ((h _ hmem).2.1 rfl),
        jsReplaceCode_id t fun hmem => ((h _ hmem).2.2 rfl)]
  refine ⟨rfl, hid, ?_⟩
  unfold messageBubbleHtml
  rw [hid]

/-- C10 witness: a text full of HTML metacharacters passes through
`formatMessage` unchanged and lands verbatim inside the bubble markup. -/
theorem formatMessage_no_escaping_witness :
    (formatMessage "<img src=x onerror=alert(1)> & <b>bold</b>"
      = "<img src=x onerror=alert(1)> & <b>bold</b>")
    ∧ (messageBubbleHtml "<img src=x onerror=alert(1)> & <b>bold</b>"
      = "<div class=\"message-bubble\"><img src=x onerror=alert(1)> & <b>bold</b></div>") := by
  have h := formatMessage_no_escaping "<img src=x onerror=alert(1)> & <b>bold</b>" (by decide)
  refine ⟨h.2.1, ?_⟩
  rw [h.2.2]
  decide

end GenTax
